import Mathlib

/-!
Shallow embedding of the bus-tracking-server core: the CacheService wrapper
over the cache engine (src/packages/api-service/src/db, Redis branch), the
generic DBRepository over one relation (src/packages/api-service/src/repo),
and the ApiController request handlers (src/unnamed/part_001), together with
theorems settling the frozen claims about them.

Rows of the relation are modelled as association lists from column name to
string value; the JSON values that travel between the handlers and the cache
are modelled by `JVal`.  The cache engine's serialize/parse round trip
(JSON.stringify on put, JSON.parse on get) is the identity on every value this
program stores, so the engine state holds the decoded values directly, paired
with the ttl the put supplied; expiry and LRU eviction are engine-side and no
claim quantifies over time, so they are not modelled.
-/

namespace BusTracking

/-- A row of the `bus_routes` relation: column name to value. -/
abbrev Row := List (String × String)

/-- Value of a named column of a row, `none` when the column is absent
(JS `undefined`). -/
def rowField (r : Row) (name : String) : Option String :=
  (r.find? (fun p => p.1 = name)).map (fun p => p.2)

/-- The `id` column (surrogate key, `WHERE id = $1`). -/
def rowId (r : Row) : Option String := rowField r "id"

/-- The `route_no` column (natural key, `WHERE route_no = $1`). -/
def rowRouteNo (r : Row) : Option String := rowField r "route_no"

/-- JSON values exchanged by the handlers: `null`, a boolean, or a record
object (a row). -/
inductive JVal where
  | null : JVal
  | bool : Bool → JVal
  | obj : Row → JVal
deriving DecidableEq, Repr

/-- JS truthiness of a `JVal`:  null and false are falsy, objects truthy. -/
def JVal.truthy : JVal → Bool
  | .null => false
  | .bool b => b
  | .obj _ => true

/-- A `T | null` repository result as a JSON value. -/
def jvalOfRow : Option Row → JVal
  | none => JVal.null
  | some r => JVal.obj r

/-! ## CacheService (src/packages/api-service/src/db/index.ts, Redis part)

Each operation wraps the engine call in try/catch and takes a `fail` flag:
`true` means the engine call raises on this invocation (connection loss,
transport error), exercising the catch branch of the source. -/

/-- The cache engine's key space: key, stored value, ttl seconds from the
put that wrote it. -/
structure CacheState where
  entries : List (String × JVal × Nat)
deriving DecidableEq, Repr

/-- `redis.get`: the value stored under `k`, if any. -/
def CacheState.lookup (st : CacheState) (k : String) : Option JVal :=
  (st.entries.find? (fun e => e.1 = k)).map (fun e => e.2.1)

/-- `redis.del k`: drop the entry for `k`. -/
def CacheState.erase (st : CacheState) (k : String) : CacheState :=
  ⟨st.entries.filter (fun e => ¬ e.1 = k)⟩

/-- `redis.set k v "EX" ttl`: overwrite the entry for `k`. -/
def CacheState.insert (st : CacheState) (k : String) (v : JVal) (ttl : Nat) :
    CacheState :=
  ⟨(k, v, ttl) :: (st.erase k).entries⟩

namespace CacheService

/-- `get(key)`: on engine failure the catch logs and returns null; otherwise
an absent key reads as null (`value ? JSON.parse(value) : null`) and a
present key yields the stored value (the serialized form of a stored value is
never the empty string, so the falsy-string branch coincides with absence). -/
def get (fail : Bool) (st : CacheState) (k : String) : JVal :=
  if fail then JVal.null
  else match st.lookup k with
    | none => JVal.null
    | some v => v

/-- `put(key, value, ttl)`: on engine failure the catch logs and the engine
state is unchanged; otherwise the entry is overwritten. -/
def put (fail : Bool) (st : CacheState) (k : String) (v : JVal) (ttl : Nat) :
    CacheState :=
  if fail then st else st.insert k v ttl

/-- `delete(key)`: on engine failure the catch logs and the state is
unchanged; otherwise the entry is dropped. -/
def delete (fail : Bool) (st : CacheState) (k : String) : CacheState :=
  if fail then st else st.erase k

/-- `invalidate(key)`: delegates to `delete` (whose own catch already
swallows the failure) and logs. -/
def invalidate (fail : Bool) (st : CacheState) (k : String) : CacheState :=
  delete fail st k

/-- `exists(key)`: `redis.exists(key) > 0`, `false` when the engine call
raises. -/
def existsKey (fail : Bool) (st : CacheState) (k : String) : Bool :=
  if fail then false else (st.lookup k).isSome

/-- `size()`: `redis.dbsize()`, `0` when the engine call raises. -/
def size (fail : Bool) (st : CacheState) : Nat :=
  if fail then 0 else st.entries.length

/-- `clear()`: `redis.flushdb()`, a no-op when the engine call raises. -/
def clear (fail : Bool) (st : CacheState) : CacheState :=
  if fail then st else ⟨[]⟩

end CacheService

/-! ## DBRepository (src/packages/api-service/src/repo/index.ts)

The relation's state is the ordered list of its rows (the store's natural
physical order); `dbServiceInstance.query` returns `result.rows` and
`getOne` takes the first row or null. -/

/-- The table state: rows in the store's natural physical order. -/
abbrev DB := List Row

/-- A relational-store failure thrown by the driver (`pg` raises, DBService
logs and rethrows). -/
inductive StoreError where
  | sqlSyntax : StoreError
deriving DecidableEq, Repr

namespace DBRepository

/-- `getAll` with limit and offset: `SELECT * FROM t LIMIT $1 OFFSET $2` —
the offset is applied first, then the limit. -/
def getAll (db : DB) (limit offset : Nat) : List Row :=
  (db.drop offset).take limit

/-- `getById(id)`: `SELECT * FROM t WHERE id = $1` through `getOne`: the
first matching row or null. -/
def getById (db : DB) (id : String) : Option Row :=
  db.find? (fun r => rowId r = some id)

/-- `getByRouteNo(route_no)`: `SELECT * FROM t WHERE route_no = $1` through
`getOne`. -/
def getByRouteNo (db : DB) (rn : String) : Option Row :=
  db.find? (fun r => rowRouteNo r = some rn)

/-- The SQL text `create(data)` interpolates: `Object.keys(data)` joined by
", " go into the column list verbatim; only the values are bound
positionally. -/
def createQuery (tableName : String) (data : Row) : String :=
  let keys := String.intercalate ", " (data.map (fun p => p.1))
  let placeholders := String.intercalate ", "
    ((List.range data.length).map (fun i => "$" ++ toString (i + 1)))
  "INSERT INTO " ++ tableName ++ " (" ++ keys ++ ") VALUES (" ++
    placeholders ++ ") RETURNING *"

/-- The SQL text `update(id, data)` interpolates: each caller-supplied field
name appears verbatim on the left of its `= $n` assignment. -/
def updateQuery (tableName : String) (data : Row) : String :=
  let updates := String.intercalate ", "
    (data.enum.map (fun p => p.2.1 ++ " = $" ++ toString (p.1 + 1)))
  "UPDATE " ++ tableName ++ " SET " ++ updates ++ " WHERE id = $" ++
    toString (data.length + 1) ++ " RETURNING *"

/-- `UPDATE ... SET` semantics on one row: each assigned column takes its new
value; unassigned columns are unchanged. -/
def applyUpdate (r : Row) (data : Row) : Row :=
  r.map (fun q => match data.find? (fun p => p.1 = q.1) with
    | some p => (q.1, p.2)
    | none => q)

/-- `update(id, data)`: the generated statement `UPDATE t SET <updates>
WHERE id = $n RETURNING *` mutates every matching row and returns the
mutated rows; with an empty `data` the SET list is empty and the statement
is a syntax error the driver raises as a StoreError.  The method returns
`result[0] || null`. -/
def update (db : DB) (id : String) (data : Row) :
    Except StoreError (Option Row × DB) :=
  if data.isEmpty then Except.error StoreError.sqlSyntax
  else
    let db' := db.map (fun r => if rowId r = some id then applyUpdate r data else r)
    let returned := (db.filter (fun r => rowId r = some id)).map
      (fun r => applyUpdate r data)
    Except.ok (returned.head?, db')

/-- `result.rows` of `DELETE FROM t WHERE id = $1` (no RETURNING clause):
always the empty list; the removal itself is reflected in the new table
state. -/
def execDeleteRows (db : DB) (id : String) : List Row × DB :=
  ([], db.filter (fun r => ¬ rowId r = some id))

/-- `result[0].affectedRows` as JS evaluates it: the field is absent from
every row pg returns, and `undefined > 0` is false. -/
def affectedRowsOf (r : Row) : Nat :=
  ((rowField r "affectedRows").bind String.toNat?).getD 0

/-- `delete(id)`: runs the DELETE, then returns
`result.length > 0 && result[0].affectedRows > 0` computed over
`result.rows`. -/
def delete (db : DB) (id : String) : Bool × DB :=
  let res := execDeleteRows db id
  (decide (res.1.length > 0) &&
    (match res.1.head? with
      | none => false
      | some r => decide (affectedRowsOf r > 0)), res.2)

end DBRepository

/-! ## ApiController (src/unnamed/part_001)

Query and route parameters arrive as `Option String` (`undefined` when
absent); JS truthiness makes both `undefined` and the empty string falsy.
The request body of PUT is `Option Row` — `undefined` when missing, and the
parsed object (possibly empty, which is truthy) otherwise. -/

/-- JS truthiness of a `string | undefined` request parameter. -/
def qTruthy : Option String → Bool
  | none => false
  | some s => decide (¬ s = "")

/-- The query condition `getBusDetails` builds: the single-field object
with key `id` holding `String(id)` when `id` is truthy, else the object with
key `route_number`. -/
inductive Selector where
  | byId : String → Selector
  | byRoute : String → Selector
deriving DecidableEq, Repr

/-- JSON string-character escaping used by `JSON.stringify` on the
characters that need it in this data. -/
def jsonEscapeChar (c : Char) : String :=
  if c = '"' then "\\\"" else if c = '\\' then "\\\\" else String.singleton c

/-- Escape the characters of a string for a JSON string literal. -/
def jsonEscape (s : String) : String :=
  String.join (s.data.map jsonEscapeChar)

/-- A JSON string literal. -/
def jstr (s : String) : String := "\"" ++ jsonEscape s ++ "\""

/-- `JSON.stringify(query)` on the read path: the single-field object
serializes with its one key in place. -/
def stringifySelector : Selector → String
  | Selector.byId v => "\x7b\"id\":" ++ jstr v ++ "\x7d"
  | Selector.byRoute v => "\x7b\"route_number\":" ++ jstr v ++ "\x7d"

/-- `JSON.stringify` of the object with single key `id` holding
`String(id)`, on the update/delete invalidation path. -/
def mutationKey (id : String) : String := "\x7b\"id\":" ++ jstr id ++ "\x7d"

/-- The response envelope: HTTP status plus the `success`, `message` and
`data` fields. -/
structure ApiResponse where
  status : Nat
  success : Bool
  message : String
  data : JVal
deriving DecidableEq, Repr

namespace ApiController

/-- `fetchBusDetails(query)`: dispatches on `query.id` truthiness to
`getById`, else `getByRouteNo`.  In the source the repository promise is
not awaited, so `busDetails` holds a pending Promise (always truthy) at the
`if (!busDetails) throw` check: the not-found branch is unreachable and the
caller's `await` unwraps the promise to the row or null. -/
def fetchBusDetails (db : DB) (q : Selector) : JVal :=
  match q with
  | Selector.byId v => jvalOfRow (DBRepository.getById db v)
  | Selector.byRoute v => jvalOfRow (DBRepository.getByRouteNo db v)

/-- `getBusDetails`: 400 when neither parameter is truthy; otherwise build
the key, try the cache, on a truthy hit answer from cache, else fetch from
the store, populate the cache best-effort, and answer 200 with whatever the
fetch produced.  `failGet`/`failPut` inject cache-engine failures on the
two cache calls; the store itself is reachable. -/
def getBusDetails (idP rnP : Option String) (failGet failPut : Bool)
    (cache : CacheState) (db : DB) : ApiResponse × CacheState :=
  if qTruthy idP = false ∧ qTruthy rnP = false then
    (⟨400, false, "Either Bus ID or Route Number is required", JVal.null⟩, cache)
  else
    let q := if qTruthy idP then Selector.byId (idP.getD "")
             else Selector.byRoute (rnP.getD "")
    let key := stringifySelector q
    let cached := CacheService.get failGet cache key
    if cached.truthy then
      (⟨200, true, "Bus details retrieved from cache", cached⟩, cache)
    else
      let busDetails := fetchBusDetails db q
      let cache' := CacheService.put failPut cache key busDetails 3600
      (⟨200, true, "Bus details retrieved successfully", busDetails⟩, cache')

/-- `updateBusDetails`: 400 when the id or the body is falsy (a missing
body is `undefined`; a present empty object is truthy); then the repository
update runs first; a driver error reaches `next(error)` and the default
handler answers 500; a null update result answers 404 with the cache
untouched; on success the derived id key is invalidated best-effort and the
updated row is answered with 200. -/
def updateBusDetails (idP : Option String) (body : Option Row) (failInv : Bool)
    (cache : CacheState) (db : DB) : ApiResponse × CacheState × DB :=
  if qTruthy idP = false ∨ body = none then
    (⟨400, false, "Bus ID and new data are required", JVal.null⟩, cache, db)
  else
    let id := idP.getD ""
    match DBRepository.update db id (body.getD []) with
    | Except.error _ =>
        (⟨500, false, "Internal Server Error", JVal.null⟩, cache, db)
    | Except.ok (none, db') =>
        (⟨404, false, "Bus details not found", JVal.null⟩, cache, db')
    | Except.ok (some row, db') =>
        let cache' := CacheService.invalidate failInv cache (mutationKey id)
        (⟨200, true, "Bus details updated successfully", JVal.obj row⟩, cache', db')

/-- `deleteBusDetails`: 400 when the id is falsy; then the repository
delete runs (the DELETE statement executes against the table); a falsy
`deletedBus` answers 404 with the cache untouched; otherwise the derived id
key is invalidated and 200 is answered with the boolean result. -/
def deleteBusDetails (idP : Option String) (failInv : Bool)
    (cache : CacheState) (db : DB) : ApiResponse × CacheState × DB :=
  if qTruthy idP = false then
    (⟨400, false, "Bus ID is required", JVal.null⟩, cache, db)
  else
    let id := idP.getD ""
    let res := DBRepository.delete db id
    if res.1 = false then
      (⟨404, false, "Bus details not found", JVal.null⟩, cache, res.2)
    else
      let cache' := CacheService.invalidate failInv cache (mutationKey id)
      (⟨200, true, "Bus details deleted successfully", JVal.bool res.1⟩, cache', res.2)

end ApiController

/-! ## Supporting lemmas -/

/-- Dropping the entries of one key leaves `find?` for any other key
unchanged. -/
theorem find_filter_ne (l : List (String × JVal × Nat)) (k k' : String)
    (h : ¬ k' = k) :
    (l.filter (fun e => ¬ e.1 = k)).find? (fun e => e.1 = k') =
      l.find? (fun e => e.1 = k') := by
  rw [List.find?_filter]
  congr 1
  funext a
  by_cases ha : a.1 = k'
  · have hk : ¬ a.1 = k := by rw [ha]; exact fun hh => h hh
    simp [ha, hk]
    exact h
  · simp [ha]

/-- Erasing one cache key leaves every other key's entry unchanged. -/
theorem CacheState.lookup_erase_ne (st : CacheState) (k k' : String)
    (h : k' ≠ k) : (st.erase k).lookup k' = st.lookup k' := by
  unfold CacheState.erase CacheState.lookup
  simp only
  rw [find_filter_ne st.entries k k' h]

/-- Erasing a cache key removes its entry. -/
theorem CacheState.lookup_erase_self (st : CacheState) (k : String) :
    (st.erase k).lookup k = none := by
  unfold CacheState.erase CacheState.lookup
  have hfind : (st.entries.filter (fun e => decide (¬ e.1 = k))).find?
      (fun e => decide (e.1 = k)) = none := by
    rw [List.find?_eq_none]
    intro e he
    have hmem := List.of_mem_filter he
    simp only [decide_eq_true_eq] at hmem ⊢
    exact hmem
  rw [hfind]
  rfl

/-- A route_number cache key is never equal to an id cache key: the two
serialized objects differ at their third character. -/
theorem routeKey_ne_mutationKey (v w : String) :
    stringifySelector (Selector.byRoute w) ≠ mutationKey v := by
  intro h
  have h1 : (stringifySelector (Selector.byRoute w)).data[2]? = some 'r' := by
    show (("\x7b\"route_number\":" ++ jstr w ++ "\x7d")).data[2]? = some 'r'
    rw [String.data_append, String.data_append, List.append_assoc]
    rw [List.getElem?_append_left (by decide)]
    decide
  have h2 : (mutationKey v).data[2]? = some 'i' := by
    show (("\x7b\"id\":" ++ jstr v ++ "\x7d")).data[2]? = some 'i'
    rw [String.data_append, String.data_append, List.append_assoc]
    rw [List.getElem?_append_left (by decide)]
    decide
  rw [h, h2] at h1
  exact absurd h1 (by decide)

/-- The INSERT statement built for a single-field payload carries the
caller-supplied field name verbatim in its column list. -/
theorem createQuery_single (name v : String) :
    DBRepository.createQuery "bus_routes" [(name, v)] =
      "INSERT INTO bus_routes (" ++ name ++ ") VALUES ($1) RETURNING *" := by
  have hgo : ∀ x : String, String.intercalate.go x ", " [] = x := fun x => rfl
  have h1 : toString 1 = "1" := rfl
  have hr : List.range 1 = [0] := rfl
  apply String.ext
  simp [DBRepository.createQuery, String.data_append, List.append_assoc,
    String.intercalate, hgo, h1, hr]

/-- The UPDATE statement built for a single-field payload carries the
caller-supplied field name verbatim in its SET list. -/
theorem updateQuery_single (name v : String) :
    DBRepository.updateQuery "bus_routes" [(name, v)] =
      "UPDATE bus_routes SET " ++ name ++ " = $1 WHERE id = $2 RETURNING *" := by
  have hgo : ∀ x : String, String.intercalate.go x ", " [] = x := fun x => rfl
  have h1 : toString 1 = "1" := rfl
  have h2 : toString 2 = "2" := rfl
  apply String.ext
  simp [DBRepository.updateQuery, String.data_append, List.append_assoc,
    String.intercalate, List.enum, List.enumFrom, hgo, h1, h2]

/-- On a nonempty payload and an id matching no row, `update` returns a null
row (the table map is the identity on every row). -/
theorem update_no_match (db : DB) (idv : String) (body : Row)
    (hb : ¬ body = []) (hnm : DBRepository.getById db idv = none) :
    DBRepository.update db idv body =
      Except.ok (none, db.map (fun r =>
        if rowId r = some idv then DBRepository.applyUpdate r body else r)) := by
  unfold DBRepository.update
  rw [if_neg (by simpa using hb)]
  have hfil : db.filter (fun r => rowId r = some idv) = [] := by
    rw [List.filter_eq_nil_iff]
    intro r hr
    unfold DBRepository.getById at hnm
    rw [List.find?_eq_none] at hnm
    simpa using hnm r hr
  rw [hfil]
  rfl

/-! ## The claims -/

/-- Claim C1: the spec says `delete(id)` returns true if a row was removed
and false if none matched, and that DELETE /v1/bus/:id answers 200 on an
existing record.  The code refutes it: `result.rows` of a DELETE statement
is always empty, so the `affectedRows` check makes `delete` return false for
every table state and id; deleting the one existing row removes it from the
table, yet the handler takes the not-found branch and answers 404. -/
theorem C1_delete_reports_false_despite_removal :
    (∀ db idv, (DBRepository.delete db idv).1 = false) ∧
    DBRepository.delete [[("id", "1"), ("route_no", "A1")]] "1" = (false, []) ∧
    (ApiController.deleteBusDetails (some "1") false ⟨[]⟩
        [[("id", "1"), ("route_no", "A1")]]).1.status = 404 ∧
    (ApiController.deleteBusDetails (some "1") false ⟨[]⟩
        [[("id", "1"), ("route_no", "A1")]]).2.2 = [] := by
  refine ⟨fun db idv => rfl, by decide, by decide, by decide⟩

/-- Claim C2: the spec says a read whose selector matches no cached entry
and no stored record ends in the not-found state and answers 404.  The code
refutes it: `fetchBusDetails` never awaits the repository promise, so its
not-found check can never fire, and the handler can only answer 400 or 200;
on an empty cache and empty table a `?id=1` read answers 200 with null data
and caches the null under the id key. -/
theorem C2_read_miss_answers_200_with_null_data :
    (∀ idP rnP fg fp cache db,
      (ApiController.getBusDetails idP rnP fg fp cache db).1.status = 400 ∨
      (ApiController.getBusDetails idP rnP fg fp cache db).1.status = 200) ∧
    (ApiController.getBusDetails (some "1") none false false ⟨[]⟩ []).1 =
      ⟨200, true, "Bus details retrieved successfully", JVal.null⟩ ∧
    ((ApiController.getBusDetails (some "1") none false false ⟨[]⟩ []).2).lookup
        (mutationKey "1") = some JVal.null := by
  refine ⟨fun idP rnP fg fp cache db => ?_, by decide, by decide⟩
  unfold ApiController.getBusDetails
  by_cases hc : qTruthy idP = false ∧ qTruthy rnP = false
  · rw [if_pos hc]
    exact Or.inl rfl
  · rw [if_neg hc]
    dsimp only
    by_cases ht : (CacheService.get fg cache (stringifySelector
        (if qTruthy idP = true then Selector.byId (idP.getD "")
         else Selector.byRoute (rnP.getD "")))).truthy = true
    · rw [if_pos ht]
      exact Or.inr rfl
    · rw [if_neg ht]
      exact Or.inr rfl

/-- Claim C3: no CacheService operation raises to its caller under
cache-engine failure: get degrades to a miss (null), put, delete and
invalidate to no-ops, exists to false and size to 0, and a read with both
cache calls failing still answers 200 with the stored record, leaving the
cache untouched. -/
theorem C3_cache_failures_degrade_to_miss :
    (∀ st k, CacheService.get true st k = JVal.null) ∧
    (∀ st k v ttl, CacheService.put true st k v ttl = st) ∧
    (∀ st k, CacheService.delete true st k = st) ∧
    (∀ st k, CacheService.invalidate true st k = st) ∧
    (∀ st k, CacheService.existsKey true st k = false) ∧
    (∀ st, CacheService.size true st = 0) ∧
    (∀ idv rnP cache db, ¬ idv = "" →
      (ApiController.getBusDetails (some idv) rnP true true cache db).1 =
        ⟨200, true, "Bus details retrieved successfully",
          jvalOfRow (DBRepository.getById db idv)⟩ ∧
      (ApiController.getBusDetails (some idv) rnP true true cache db).2 = cache) := by
  refine ⟨fun st k => rfl, fun st k v ttl => rfl, fun st k => rfl,
    fun st k => rfl, fun st k => rfl, fun st => rfl, ?_⟩
  intro idv rnP cache db hid
  have hq : qTruthy (some idv) = true := by simp [qTruthy, hid]
  unfold ApiController.getBusDetails
  rw [if_neg (by simp [hq])]
  simp [hq, CacheService.get, CacheService.put, ApiController.fetchBusDetails,
    JVal.truthy, Option.getD_some]

/-- Witness for C3: with the record for id 1 in the table and both cache
calls failing, the read answers 200 with that record and the cache is
unchanged. -/
theorem C3_cache_failures_degrade_to_miss_witness :
    (ApiController.getBusDetails (some "1") none true true ⟨[]⟩
        [[("id", "1"), ("route_no", "A1")]]).1 =
      ⟨200, true, "Bus details retrieved successfully",
        jvalOfRow (DBRepository.getById [[("id", "1"), ("route_no", "A1")]] "1")⟩ ∧
    (ApiController.getBusDetails (some "1") none true true ⟨[]⟩
        [[("id", "1"), ("route_no", "A1")]]).2 = ⟨[]⟩ :=
  C3_cache_failures_degrade_to_miss.2.2.2.2.2.2 "1" none ⟨[]⟩
    [[("id", "1"), ("route_no", "A1")]] (by decide)

/-- Claim C4: when the repository update succeeds, the handler applies the
store mutation and then invalidates the cache entry under the id key: the
final table is the mutated one, the entry under the id key is gone, and the
next cache get for that key is a miss. -/
theorem C4_update_mutates_store_then_invalidates_id_key (idv : String)
    (hid : ¬ idv = "") (body : Row) (cache : CacheState) (db : DB)
    (row : Row) (db' : DB)
    (hup : DBRepository.update db idv body = Except.ok (some row, db')) :
    (ApiController.updateBusDetails (some idv) (some body) false cache db).1 =
      ⟨200, true, "Bus details updated successfully", JVal.obj row⟩ ∧
    (ApiController.updateBusDetails (some idv) (some body) false cache db).2.2 = db' ∧
    ((ApiController.updateBusDetails (some idv) (some body) false cache db).2.1).lookup
        (mutationKey idv) = none ∧
    CacheService.get false
        (ApiController.updateBusDetails (some idv) (some body) false cache db).2.1
        (mutationKey idv) = JVal.null := by
  have hq : qTruthy (some idv) = true := by simp [qTruthy, hid]
  have hcond : ¬ (qTruthy (some idv) = false ∨ (some body : Option Row) = none) := by
    simp [hq]
  unfold ApiController.updateBusDetails
  rw [if_neg hcond]
  simp only [Option.getD_some]
  rw [hup]
  refine ⟨rfl, rfl, ?_, ?_⟩
  · exact CacheState.lookup_erase_self cache (mutationKey idv)
  · show CacheService.get false (cache.erase (mutationKey idv)) (mutationKey idv) = JVal.null
    simp [CacheService.get, CacheState.lookup_erase_self]

/-- Witness for C4: updating route_no of the record with id 1 while its id
key is cached yields 200 with the new row, the mutated table, and a cache
miss for that key afterwards. -/
theorem C4_update_mutates_store_then_invalidates_id_key_witness :
    (ApiController.updateBusDetails (some "1") (some [("route_no", "A2")]) false
        ⟨[(mutationKey "1", JVal.obj [("id", "1"), ("route_no", "A1")], 3600)]⟩
        [[("id", "1"), ("route_no", "A1")]]).1 =
      ⟨200, true, "Bus details updated successfully",
        JVal.obj [("id", "1"), ("route_no", "A2")]⟩ ∧
    (ApiController.updateBusDetails (some "1") (some [("route_no", "A2")]) false
        ⟨[(mutationKey "1", JVal.obj [("id", "1"), ("route_no", "A1")], 3600)]⟩
        [[("id", "1"), ("route_no", "A1")]]).2.2 =
      [[("id", "1"), ("route_no", "A2")]] ∧
    ((ApiController.updateBusDetails (some "1") (some [("route_no", "A2")]) false
        ⟨[(mutationKey "1", JVal.obj [("id", "1"), ("route_no", "A1")], 3600)]⟩
        [[("id", "1"), ("route_no", "A1")]]).2.1).lookup (mutationKey "1") = none ∧
    CacheService.get false
        (ApiController.updateBusDetails (some "1") (some [("route_no", "A2")]) false
          ⟨[(mutationKey "1", JVal.obj [("id", "1"), ("route_no", "A1")], 3600)]⟩
          [[("id", "1"), ("route_no", "A1")]]).2.1
        (mutationKey "1") = JVal.null :=
  C4_update_mutates_store_then_invalidates_id_key "1" (by decide)
    [("route_no", "A2")]
    ⟨[(mutationKey "1", JVal.obj [("id", "1"), ("route_no", "A1")], 3600)]⟩
    [[("id", "1"), ("route_no", "A1")]]
    [("id", "1"), ("route_no", "A2")]
    [[("id", "1"), ("route_no", "A2")]] (by rfl)

/-- Claim C5: the spec requires caller-controlled field names to be checked
against an allow-list before interpolation.  The code refutes it: for every
field name, `create` and `update` splice the name verbatim into the SQL
text with no validation or rejection path, as the concrete injection
payload shows. -/
theorem C5_field_names_interpolated_unvalidated :
    (∀ name v, DBRepository.createQuery "bus_routes" [(name, v)] =
      "INSERT INTO bus_routes (" ++ name ++ ") VALUES ($1) RETURNING *") ∧
    (∀ name v, DBRepository.updateQuery "bus_routes" [(name, v)] =
      "UPDATE bus_routes SET " ++ name ++ " = $1 WHERE id = $2 RETURNING *") ∧
    DBRepository.createQuery "bus_routes"
        [("id) VALUES (0); DROP TABLE bus_routes; --", "x")] =
      "INSERT INTO bus_routes (id) VALUES (0); DROP TABLE bus_routes; --) VALUES ($1) RETURNING *" := by
  refine ⟨createQuery_single, updateQuery_single, ?_⟩
  rw [createQuery_single]
  decide

/-- Counterexample to claim C6: a PUT whose body is present but empty (the
parsed empty JSON object is truthy) on an id that matches no record builds
the malformed statement `UPDATE bus_routes SET  WHERE ...`; the driver error
reaches the error middleware and the response is 500, not the claimed
404. -/
theorem C6_empty_body_answers_500 :
    (ApiController.updateBusDetails (some "1") (some []) false ⟨[]⟩ []).1.status = 500 ∧
    ¬ (ApiController.updateBusDetails (some "1") (some []) false ⟨[]⟩ []).1.status = 404 := by
  refine ⟨by decide, by decide⟩

/-- Claim C6 as amended: a PUT with a missing body answers 400; with a
present body holding at least one field and an id matching no record it
answers 404; when the repository update succeeds it answers 200 with the
updated record. -/
theorem C6_put_status_paths :
    (∀ idP cache db,
      (ApiController.updateBusDetails idP none false cache db).1.status = 400) ∧
    (∀ idv body cache db, ¬ idv = "" → ¬ body = [] →
      DBRepository.getById db idv = none →
      (ApiController.updateBusDetails (some idv) (some body) false cache db).1.status = 404) ∧
    (∀ idv body cache db row db', ¬ idv = "" →
      DBRepository.update db idv body = Except.ok (some row, db') →
      (ApiController.updateBusDetails (some idv) (some body) false cache db).1 =
        ⟨200, true, "Bus details updated successfully", JVal.obj row⟩) := by
  refine ⟨?_, ?_, ?_⟩
  · intro idP cache db
    unfold ApiController.updateBusDetails
    rw [if_pos (Or.inr rfl)]
  · intro idv body cache db hid hb hnm
    have hq : qTruthy (some idv) = true := by simp [qTruthy, hid]
    unfold ApiController.updateBusDetails
    rw [if_neg (by simp [hq])]
    simp only [Option.getD_some]
    rw [update_no_match db idv body hb hnm]
  · intro idv body cache db row db' hid hup
    have hq : qTruthy (some idv) = true := by simp [qTruthy, hid]
    unfold ApiController.updateBusDetails
    rw [if_neg (by simp [hq])]
    simp only [Option.getD_some]
    rw [hup]

/-- Witness for C6: the three response paths at concrete requests — missing
body, one-field body on an empty table, and a succeeding update. -/
theorem C6_put_status_paths_witness :
    (ApiController.updateBusDetails (some "1") none false ⟨[]⟩ []).1.status = 400 ∧
    (ApiController.updateBusDetails (some "1") (some [("route_no", "A2")]) false
        ⟨[]⟩ []).1.status = 404 ∧
    (ApiController.updateBusDetails (some "1") (some [("route_no", "A2")]) false
        ⟨[]⟩ [[("id", "1"), ("route_no", "A1")]]).1 =
      ⟨200, true, "Bus details updated successfully",
        JVal.obj [("id", "1"), ("route_no", "A2")]⟩ :=
  ⟨C6_put_status_paths.1 (some "1") ⟨[]⟩ [],
   C6_put_status_paths.2.1 "1" [("route_no", "A2")] ⟨[]⟩ [] (by decide)
     (by decide) (by decide),
   C6_put_status_paths.2.2 "1" [("route_no", "A2")] ⟨[]⟩
     [[("id", "1"), ("route_no", "A1")]] [("id", "1"), ("route_no", "A2")]
     [[("id", "1"), ("route_no", "A2")]] (by decide) (by rfl)⟩

/-- Claim C7: key construction is deterministic — equal selectors always
serialize to the same cache key string — and the read-path serialization of
an id selector is character-for-character the key the invalidation path
derives for the same id. -/
theorem C7_buildkey_deterministic :
    (∀ s t : Selector, s = t → stringifySelector s = stringifySelector t) ∧
    (∀ idv, stringifySelector (Selector.byId idv) = mutationKey idv) :=
  ⟨fun s t h => by rw [h], fun idv => rfl⟩

/-- Witness for C7: the id-1 selector on the read path and the id-1 key on
the invalidation path agree. -/
theorem C7_buildkey_deterministic_witness :
    stringifySelector (Selector.byId "1") = stringifySelector (Selector.byId "1") ∧
    stringifySelector (Selector.byId "1") = mutationKey "1" :=
  ⟨C7_buildkey_deterministic.1 (Selector.byId "1") (Selector.byId "1") rfl,
   C7_buildkey_deterministic.2 "1"⟩

/-- Claim C8: on a table of at least 4 rows with pairwise-distinct ids, the
first page (limit 2, offset 0) and the second page (limit 2, offset 2) are
disjoint record sets. -/
theorem C8_pagination_pages_disjoint (db : DB) (hlen : 4 ≤ db.length)
    (hnodup : (db.map rowId).Nodup) :
    List.Disjoint (DBRepository.getAll db 2 0) (DBRepository.getAll db 2 2) := by
  have hdb : db.Nodup := hnodup.of_map
  intro r h0 h2
  have h0' : r ∈ db.take 2 := by simpa [DBRepository.getAll] using h0
  have h2' : r ∈ db.drop 2 :=
    List.mem_of_mem_take (by simpa [DBRepository.getAll] using h2)
  exact List.disjoint_take_drop hdb (le_refl 2) h0' h2'

/-- Witness for C8: the two pages of a concrete 4-row table share no
record. -/
theorem C8_pagination_pages_disjoint_witness :
    List.Disjoint
      (DBRepository.getAll [[("id", "1")], [("id", "2")], [("id", "3")], [("id", "4")]] 2 0)
      (DBRepository.getAll [[("id", "1")], [("id", "2")], [("id", "3")], [("id", "4")]] 2 2) :=
  C8_pagination_pages_disjoint
    [[("id", "1")], [("id", "2")], [("id", "3")], [("id", "4")]]
    (by decide) (by decide)

/-- Claim C9: the update and delete handlers touch no cache entry outside
the key serialized from the id selector — every other key reads the same
before and after, whatever the invalidation outcome — and a route_number
key is never that id key, so an entry cached under the route_number
selector by an earlier read survives the mutation. -/
theorem C9_mutation_invalidates_only_id_key :
    (∀ idv body failInv cache db k, ¬ k = mutationKey idv →
      ((ApiController.updateBusDetails (some idv) body failInv cache db).2.1).lookup k =
        cache.lookup k) ∧
    (∀ idv failInv cache db k,
      ((ApiController.deleteBusDetails (some idv) failInv cache db).2.1).lookup k =
        cache.lookup k) ∧
    (∀ idv rn, stringifySelector (Selector.byRoute rn) ≠ mutationKey idv) := by
  refine ⟨?_, ?_, fun idv rn => routeKey_ne_mutationKey idv rn⟩
  · intro idv body failInv cache db k hk
    unfold ApiController.updateBusDetails
    by_cases hc : qTruthy (some idv) = false ∨ body = none
    · rw [if_pos hc]
    · rw [if_neg hc]
      simp only [Option.getD_some]
      split
      · rfl
      · rfl
      · cases failInv with
        | true => rfl
        | false => exact CacheState.lookup_erase_ne cache (mutationKey idv) k hk
  · intro idv failInv cache db k
    unfold ApiController.deleteBusDetails
    by_cases hc : qTruthy (some idv) = false
    · rw [if_pos hc]
    · rw [if_neg hc]
      simp only [Option.getD_some]
      rw [if_pos (by rfl)]

/-- Witness for C9: a successful update of id 1 leaves the entry cached
under the route_number A1 key exactly as it was. -/
theorem C9_mutation_invalidates_only_id_key_witness :
    ((ApiController.updateBusDetails (some "1") (some [("route_no", "A2")]) false
        ⟨[(stringifySelector (Selector.byRoute "A1"),
           JVal.obj [("id", "1"), ("route_no", "A1")], 3600)]⟩
        [[("id", "1"), ("route_no", "A1")]]).2.1).lookup
        (stringifySelector (Selector.byRoute "A1")) =
      (⟨[(stringifySelector (Selector.byRoute "A1"),
          JVal.obj [("id", "1"), ("route_no", "A1")], 3600)]⟩ : CacheState).lookup
        (stringifySelector (Selector.byRoute "A1")) :=
  C9_mutation_invalidates_only_id_key.1 "1" (some [("route_no", "A2")]) false
    ⟨[(stringifySelector (Selector.byRoute "A1"),
       JVal.obj [("id", "1"), ("route_no", "A1")], 3600)]⟩
    [[("id", "1"), ("route_no", "A1")]]
    (stringifySelector (Selector.byRoute "A1")) (by decide)

/-- Counterexample to claim C10: a request supplying both parameters with an
empty id string (`?id=&route_number=B2`) is served through the route_number
path — the response carries the row found by route number even though no
row matches id "", and the key written to the cache is the route_number
key — because the empty string is falsy in the handler's selector test. -/
theorem C10_empty_id_falls_back_to_route :
    (ApiController.getBusDetails (some "") (some "B2") false false ⟨[]⟩
        [[("id", "7"), ("route_no", "B2")]]).1.data =
      JVal.obj [("id", "7"), ("route_no", "B2")] ∧
    DBRepository.getById [[("id", "7"), ("route_no", "B2")]] "" = none ∧
    ((ApiController.getBusDetails (some "") (some "B2") false false ⟨[]⟩
        [[("id", "7"), ("route_no", "B2")]]).2).entries.map (fun e => e.1) =
      [stringifySelector (Selector.byRoute "B2")] := by
  refine ⟨by decide, by decide, by decide⟩

/-- Claim C10 as amended: on a request whose id parameter is truthy
(non-empty), the handler uses id exclusively — the whole outcome is
independent of route_number, and the served data comes from the id cache
key or, on a miss, from `getById`. -/
theorem C10_truthy_id_takes_precedence (idv : String) (hid : ¬ idv = "")
    (rnP : Option String) (fg fp : Bool) (cache : CacheState) (db : DB) :
    ApiController.getBusDetails (some idv) rnP fg fp cache db =
      ApiController.getBusDetails (some idv) none fg fp cache db ∧
    (ApiController.getBusDetails (some idv) rnP fg fp cache db).1.data =
      (if (CacheService.get fg cache (stringifySelector (Selector.byId idv))).truthy then
         CacheService.get fg cache (stringifySelector (Selector.byId idv))
       else jvalOfRow (DBRepository.getById db idv)) := by
  have hq : qTruthy (some idv) = true := by simp [qTruthy, hid]
  have hsel : ∀ o : Option String,
      (if qTruthy (some idv) = true then Selector.byId ((some idv).getD "")
       else Selector.byRoute (o.getD "")) = Selector.byId idv := by
    intro o
    simp [hq]
  unfold ApiController.getBusDetails
  rw [if_neg (show ¬ (qTruthy (some idv) = false ∧ qTruthy rnP = false) from
        by simp [hq]),
      if_neg (show ¬ (qTruthy (some idv) = false ∧
          qTruthy (none : Option String) = false) from by simp [hq])]
  dsimp only
  rw [hsel rnP, hsel none]
  constructor
  · rfl
  · by_cases ht : (CacheService.get fg cache
        (stringifySelector (Selector.byId idv))).truthy = true
    · rw [if_pos ht, if_pos ht]
    · rw [if_neg ht, if_neg ht]
      rfl

/-- Witness for C10: with a truthy id and a route_number both supplied, the
response equals the id-only response and the data is the `getById` row. -/
theorem C10_truthy_id_takes_precedence_witness :
    ApiController.getBusDetails (some "1") (some "B2") false false ⟨[]⟩
        [[("id", "1"), ("route_no", "B2")]] =
      ApiController.getBusDetails (some "1") none false false ⟨[]⟩
        [[("id", "1"), ("route_no", "B2")]] ∧
    (ApiController.getBusDetails (some "1") (some "B2") false false ⟨[]⟩
        [[("id", "1"), ("route_no", "B2")]]).1.data =
      (if (CacheService.get false (⟨[]⟩ : CacheState)
            (stringifySelector (Selector.byId "1"))).truthy then
         CacheService.get false (⟨[]⟩ : CacheState)
           (stringifySelector (Selector.byId "1"))
       else jvalOfRow (DBRepository.getById
           [[("id", "1"), ("route_no", "B2")]] "1")) :=
  C10_truthy_id_takes_precedence "1" (by decide) (some "B2") false false ⟨[]⟩
    [[("id", "1"), ("route_no", "B2")]]

end BusTracking
